import Mathlib

/-!
Verification of the entity-spec-driven CRUD code generation engine
(`generate_crud_boilerplate.py`, together with the shared casing/import
helpers of `utils.py`).

The Python source is embedded shallowly:

* strings are Lean `String`s (all data the engine manipulates is ASCII);
* `re.sub`-based casing passes are modelled by explicit left-to-right,
  non-overlapping scans over the character list (a fuel argument equal to
  the list length makes the scan structurally recursive, so every
  definition is executable and kernel-reducible);
* `string.Template.safe_substitute` is modelled by a scanner over the
  template text implementing the documented `$$` / `$ident` / braced /
  invalid-delimiter cases;
* `dict` lookups become association-list lookups, Python `sorted` becomes
  `List.insertionSort`, Python `set` dedup becomes `List.dedup`;
* `raise SystemExit(msg)` becomes `Except.error msg`; the `main` pipeline
  is a pure function from the parsed spec, flags, and the template
  directory contents (a `String → Option String` map) to either an error
  message or the ordered list of rendered artifacts.
-/

namespace Crud

/-! ## ASCII character classes and Python string primitives -/

/-- `[A-Z]` as used by the casing regexes (ASCII range). -/
def isUpperAZ (c : Char) : Bool := 'A' ≤ c && c ≤ 'Z'

/-- `[a-z]` as used by the casing regexes (ASCII range). -/
def isLowerAZ (c : Char) : Bool := 'a' ≤ c && c ≤ 'z'

/-- `[0-9]`. -/
def isDigit09 (c : Char) : Bool := '0' ≤ c && c ≤ '9'

/-- `[a-z0-9]`, the first class of the second casing regex. -/
def isLowerDigit (c : Char) : Bool := isLowerAZ c || isDigit09 c

/-- ASCII lowercase of one character, as Python `str.lower` acts on the
ASCII identifiers this engine manipulates. -/
def pyLowerChar (c : Char) : Char :=
  if isUpperAZ c then Char.ofNat (c.toNat + 32) else c

/-- ASCII uppercase of one character (Python `str.upper`). -/
def pyUpperChar (c : Char) : Char :=
  if isLowerAZ c then Char.ofNat (c.toNat - 32) else c

/-- Python `str.lower` on an ASCII string. -/
def pyLower (s : String) : String := String.mk (s.data.map pyLowerChar)

/-- Python `str.upper` on an ASCII string. -/
def pyUpper (s : String) : String := String.mk (s.data.map pyUpperChar)

/-- Python whitespace stripped by `str.rstrip()` (ASCII members). -/
def isPyWs (c : Char) : Bool :=
  c = ' ' || c = '\t' || c = '\n' || c = '\r' || c = '\x0b' || c = '\x0c'

/-- Python `str.rstrip()`. -/
def pyRstrip (s : String) : String :=
  String.mk ((s.data.reverse.dropWhile isPyWs).reverse)

/-- Python `sep.join(xs)`. -/
def joinSep (sep : String) : List String → String
  | [] => ""
  | [x] => x
  | x :: y :: xs => x ++ sep ++ joinSep sep (y :: xs)

/-- `", ".join(xs)` as used for parameter/argument lists. -/
def joinComma (xs : List String) : String := joinSep ", " xs

/-- `"\n".join(xs)` as used for declaration blocks. -/
def joinNl (xs : List String) : String := joinSep "\n" xs

/-- One step list of Python `str.replace(old, new)` (non-overlapping,
left-to-right).  `fuel` bounds the scan; `fuel = length of the scanned
list` always suffices because every step consumes at least one character. -/
def replaceAux (old new : List Char) : Nat → List Char → List Char
  | 0, l => l
  | _ + 1, [] => []
  | fuel + 1, c :: rest =>
    if old.isPrefixOf (c :: rest) then
      new ++ replaceAux old new fuel ((c :: rest).drop old.length)
    else
      c :: replaceAux old new fuel rest

/-- Python `s.replace(old, new)` (for the nonempty `old`s this engine uses). -/
def pyReplace (s old new : String) : String :=
  String.mk (replaceAux old.data new.data s.data.length s.data)

/-! ## Naming transforms

`utils.py`:

    def to_snake_case(name):
        s1 = re.sub('(.)([A-Z][a-z]+)', r'\1_\2', name)
        return re.sub('([a-z0-9])([A-Z])', r'\1_\2', s1).lower()

`generate_crud_boilerplate.py` (`camel_to_snake`) is the identical
algorithm.  Both regex passes are modelled as non-overlapping left-to-right
scans exactly as `re.sub` performs them: a match found at the current
position is replaced and scanning resumes after the match; otherwise the
scan advances one character.  `.` in the first pattern does not match a
newline (no `DOTALL` flag). -/

/-- First pass, `re.sub('(.)([A-Z][a-z]+)', r'\1_\2', s)`: at each
position, match any non-newline character followed by an uppercase letter
and a maximal nonempty lowercase run; on a match insert `_` after the
first character and resume after the run. -/
def snakePass1Aux : Nat → List Char → List Char
  | 0, l => l
  | _ + 1, [] => []
  | fuel + 1, c :: rest =>
    match rest with
    | d :: e :: rest2 =>
      if c ≠ '\n' && isUpperAZ d && isLowerAZ e then
        let run := (e :: rest2).takeWhile isLowerAZ
        c :: '_' :: d :: (run ++ snakePass1Aux fuel ((e :: rest2).drop run.length))
      else
        c :: snakePass1Aux fuel rest
    | _ => c :: snakePass1Aux fuel rest

def snakePass1 (l : List Char) : List Char := snakePass1Aux l.length l

/-- Second pass, `re.sub('([a-z0-9])([A-Z])', r'\1_\2', s)`.  Matches are
two characters long and cannot overlap (the shared character would have to
be both uppercase and lowercase/digit), so the scan is structural. -/
def snakePass2 : List Char → List Char
  | [] => []
  | [c] => [c]
  | c :: d :: rest =>
    if isLowerDigit c && isUpperAZ d then
      c :: '_' :: d :: snakePass2 rest
    else
      c :: snakePass2 (d :: rest)

/-- `utils.to_snake_case`. -/
def to_snake_case (name : String) : String :=
  pyLower (String.mk (snakePass2 (snakePass1 name.data)))

/-- `utils.to_upper_snake`: `to_snake_case(name).upper()`. -/
def to_upper_snake (name : String) : String := pyUpper (to_snake_case name)

/-- `generate_crud_boilerplate.camel_to_snake` — textually the same two
regex passes followed by `.lower()`. -/
def camel_to_snake (name : String) : String :=
  pyLower (String.mk (snakePass2 (snakePass1 name.data)))

/-- `lower_first`: `s[:1].lower() + s[1:]`. -/
def lower_first (s : String) : String :=
  match s.data with
  | [] => ""
  | c :: rest => String.mk (pyLowerChar c :: rest)

/-- `cap` (inner helper of `main`): `s[:1].upper() + s[1:]`. -/
def cap (s : String) : String :=
  match s.data with
  | [] => ""
  | c :: rest => String.mk (pyUpperChar c :: rest)

/-! ## Type registries and import aggregation -/

/-- `JAVA_TYPE_IMPORTS.get(t)` (`generate_crud_boilerplate.py`). -/
def JAVA_TYPE_IMPORTS (t : String) : Option String :=
  if t = "BigDecimal" then some "import java.math.BigDecimal;"
  else if t = "UUID" then some "import java.util.UUID;"
  else if t = "LocalDate" then some "import java.time.LocalDate;"
  else if t = "LocalDateTime" then some "import java.time.LocalDateTime;"
  else none

/-- Keys of `SUPPORTED_SIMPLE_TYPES` (`x in SUPPORTED_SIMPLE_TYPES` tests
key membership in the dict). -/
def SUPPORTED_SIMPLE_TYPES : List String :=
  ["String", "Long", "Integer", "Boolean", "BigDecimal", "UUID",
   "LocalDate", "LocalDateTime"]

/-- Lexicographic (code-point) comparison of character lists: the order
Python uses to compare strings in `sorted`. -/
def lexLe : List Char → List Char → Bool
  | [], _ => true
  | _ :: _, [] => false
  | a :: as, b :: bs => if a = b then lexLe as bs else decide (a < b)

/-- Python's `s1 <= s2` on strings, as an executable proposition. -/
def pyStrLe (a b : String) : Prop := lexLe a.data b.data = true

instance : DecidableRel pyStrLe := fun a b =>
  inferInstanceAs (Decidable (lexLe a.data b.data = true))

/-- The accumulation loop of `qualify_imports`: append the mapped import
of each type unless it is already present. -/
def qualifyLoop : List String → List String → List String
  | acc, [] => acc
  | acc, t :: ts =>
    match JAVA_TYPE_IMPORTS t with
    | some imp => if imp ∈ acc then qualifyLoop acc ts
                  else qualifyLoop (acc ++ [imp]) ts
    | none => qualifyLoop acc ts

/-- `qualify_imports(types)` as the list of collected import lines (the
Python function returns `"\n".join` of this list). -/
def qualifyImportsList (types : List String) : List String := qualifyLoop [] types

/-- `qualify_imports(types)` (the joined block). -/
def qualify_imports (types : List String) : String := joinNl (qualifyImportsList types)

/-- Python `sorted(l)` for strings (stable; for the duplicate-free lists
this engine sorts, any sort agreeing with `pyStrLe` coincides with it). -/
def pySorted (l : List String) : List String := l.insertionSort pyStrLe

/-- Python `sorted(set(l))` for strings: the sorted duplicate-free
enumeration of `l`'s elements. -/
def pySortedSet (l : List String) : List String := pySorted l.dedup

/-- The import block every generator site derives for a list of used
types: `qualify_imports(sorted(used_types))` where `used_types` is the set
of field types (`extra_imports` in `main` and in the `tmpl_*` builders). -/
def extraImportsList (types : List String) : List String :=
  qualifyImportsList (pySortedSet types)

/-- `utils.java_type_imports(t)`: returns the import statement or `""`. -/
def java_type_imports (t : String) : String :=
  if t = "BigDecimal" then "import java.math.BigDecimal;"
  else if t = "LocalDate" then "import java.time.LocalDate;"
  else if t = "LocalDateTime" then "import java.time.LocalDateTime;"
  else if t = "Set" then "import java.util.Set;"
  else if t = "List" then "import java.util.List;"
  else if t = "Map" then "import java.util.Map;"
  else ""

/-- The `seen`/`result` loop of `utils.collect_imports` (both containers
always hold the same elements, so one accumulator models them). -/
def collectLoop : List String → List (String × String) → List String
  | acc, [] => acc
  | acc, (_, typ) :: fs =>
    let imp := java_type_imports typ
    if imp ≠ "" ∧ imp ∉ acc then collectLoop (acc ++ [imp]) fs
    else collectLoop acc fs

/-- `utils.collect_imports(fields)`: collect unique imports in first-seen
order, then `sorted(result)`. -/
def collect_imports (fields : List (String × String)) : List String :=
  pySorted (collectLoop [] fields)

/-! ## The parsed entity spec and `main`'s validation

The JSON/YAML wire document is modelled after parsing: a field dict is a
name/type pair, the optional `id` dict also carries its optional
`generated` flag (`.get("generated", default)` is an `Option Bool`), and a
relationship dict carries its optional members.  A missing, `null` or
empty (falsy) `id` entry of the document is `none` here, matching
`spec.get("id") or default` in `main`.  `raise SystemExit(msg)` is
`Except.error msg`. -/

structure FieldSpec where
  name : String
  ftype : String
deriving DecidableEq

structure IdSpec where
  name : String
  ftype : String
  generated : Option Bool
deriving DecidableEq

structure JoinTableSpec where
  name : Option String
  joinColumn : Option String
  inverseJoinColumn : Option String
deriving DecidableEq

structure RelSpec where
  rtype : Option String
  name : Option String
  target : Option String
  mappedBy : Option String
  joinColumn : Option String
  joinTable : Option JoinTableSpec
  optionalFlag : Option Bool
deriving DecidableEq

structure EntitySpec where
  entity : String
  id : Option IdSpec
  fields : List FieldSpec
  relationships : List RelSpec
deriving DecidableEq

/-- `[A-Za-z0-9_]`. -/
def isWordChar (c : Char) : Bool :=
  isUpperAZ c || isLowerAZ c || isDigit09 c || c = '_'

/-- An anchored match of `[A-Z][A-Za-z0-9_]*` against the whole list. -/
def pascalCore : List Char → Bool
  | [] => false
  | c :: rest => isUpperAZ c && rest.all isWordChar

/-- `re.match(r"^[A-Z][A-Za-z0-9_]*$", s)` is not `None`.  In Python, `$`
(without `re.M`) also matches just before one final newline, so a name
with a single trailing `"\n"` passes. -/
def pascalMatch (s : String) : Bool :=
  pascalCore s.data ||
    (s.data.getLast? = some '\n' && pascalCore s.data.dropLast)

/-- The default id of `main`: `{"name": "id", "type": "Long", "generated": True}`. -/
def defaultIdSpec : IdSpec := ⟨"id", "Long", some true⟩

/-- `id_spec = spec.get("id") or {...}`. -/
def idSpecOf (s : EntitySpec) : IdSpec := s.id.getD defaultIdSpec

/-- The validation `main` performs before doing anything else (lines
584-596): entity-name shape, id type membership, then each field's type
membership, failing on the first offender. -/
def checkFieldTypes : List FieldSpec → Except String Unit
  | [] => Except.ok ()
  | f :: fs =>
    if f.ftype ∈ SUPPORTED_SIMPLE_TYPES then checkFieldTypes fs
    else Except.error ("Unsupported field type: " ++ f.name ++ " -> " ++ f.ftype)

def validateSpec (s : EntitySpec) : Except String Unit :=
  if s.entity = "" ∨ pascalMatch s.entity = false then
    Except.error "Spec 'entity' must be a PascalCase identifier, e.g., 'Product'"
  else if (idSpecOf s).ftype ∉ SUPPORTED_SIMPLE_TYPES then
    Except.error ("Unsupported id type: " ++ (idSpecOf s).ftype)
  else
    checkFieldTypes s.fields

/-! ## Placeholder derivation (`main`, lines 655-793)

Each `placeholders` entry of `main` becomes a definition over the resolved
id spec and field list.  `all_fields = [id_spec, *fields]`. -/

/-- The id spec seen as a plain field (its `name`/`type` entries). -/
def idField (id : IdSpec) : FieldSpec := ⟨id.name, id.ftype⟩

def all_fields (id : IdSpec) (fields : List FieldSpec) : List FieldSpec :=
  idField id :: fields

/-- `id_generated = bool(id_spec.get("generated", False))`. -/
def id_generated (id : IdSpec) : Bool := id.generated.getD false

/-- `extra_imports = qualify_imports(sorted(used_types))` with
`used_types = {f["type"] for f in all_fields}`. -/
def extra_imports (id : IdSpec) (fields : List FieldSpec) : String :=
  joinNl (extraImportsList ((all_fields id fields).map FieldSpec.ftype))

def final_kw (lombok : Bool) : String := if lombok then "" else "final "

def domain_fields_decls (lombok : Bool) (id : IdSpec) (fields : List FieldSpec) : String :=
  joinNl ((all_fields id fields).map fun f =>
    "    private " ++ final_kw lombok ++ f.ftype ++ " " ++ f.name ++ ";")

def domain_ctor_params (id : IdSpec) (fields : List FieldSpec) : String :=
  joinComma ((all_fields id fields).map fun f => f.ftype ++ " " ++ f.name)

def domain_assigns (id : IdSpec) (fields : List FieldSpec) : String :=
  joinNl ((all_fields id fields).map fun f =>
    "        this." ++ f.name ++ " = " ++ f.name ++ ";")

def domain_getters (lombok : Bool) (id : IdSpec) (fields : List FieldSpec) : String :=
  if lombok then "" else
    joinNl ((all_fields id fields).map fun f =>
      "    public " ++ f.ftype ++ " get" ++ cap f.name ++
        "() \x7b return " ++ f.name ++ "; \x7d")

def model_constructor_block (lombok : Bool) (entity : String)
    (id : IdSpec) (fields : List FieldSpec) : String :=
  if lombok then "" else
    "    private " ++ entity ++ "(" ++ domain_ctor_params id fields ++ ") \x7b\n" ++
      domain_assigns id fields ++ "\n    \x7d"

def all_names_csv (id : IdSpec) (fields : List FieldSpec) : String :=
  joinComma ((all_fields id fields).map FieldSpec.name)

/-- `_jpa_field_decl` applied to the id spec itself (`f is id_spec`). -/
def jpa_id_decl (id : IdSpec) : String :=
  joinNl (["    @Id"] ++
    (if id_generated id && (id.ftype = "Long" || id.ftype = "Integer") then
      ["    @GeneratedValue(strategy = GenerationType.IDENTITY)"] else []) ++
    ["    private " ++ id.ftype ++ " " ++ id.name ++ ";"])

/-- `_jpa_field_decl` applied to a non-id field. -/
def jpa_plain_decl (f : FieldSpec) : String :=
  "    @Column(nullable = false)\n    private " ++ f.ftype ++ " " ++ f.name ++ ";"

def jpa_fields_decls (id : IdSpec) (fields : List FieldSpec) : String :=
  joinNl (jpa_id_decl id :: fields.map jpa_plain_decl)

def jpa_getters_setters (id : IdSpec) (fields : List FieldSpec) : String :=
  joinNl ((all_fields id fields).map fun f =>
    "    public " ++ f.ftype ++ " get" ++ cap f.name ++ "() \x7b return " ++
      f.name ++ "; \x7d\n    public void set" ++ cap f.name ++ "(" ++ f.ftype ++
      " " ++ f.name ++ ") \x7b this." ++ f.name ++ " = " ++ f.name ++ "; \x7d")

/-- One record component, `f"{f['type']} {f['name']}"`. -/
def componentDecl (f : FieldSpec) : String := f.ftype ++ " " ++ f.name

def dto_response_components (id : IdSpec) (fields : List FieldSpec) : String :=
  joinComma ((all_fields id fields).map componentDecl)

/-- `dto_request_fields = (fields if id_generated else all_fields)`. -/
def dto_request_fields (id : IdSpec) (fields : List FieldSpec) : List FieldSpec :=
  if id_generated id then fields else all_fields id fields

def dto_request_components (id : IdSpec) (fields : List FieldSpec) : String :=
  joinComma ((dto_request_fields id fields).map componentDecl)

def adapter_to_entity_args (id : IdSpec) (fields : List FieldSpec) : String :=
  joinComma ((all_fields id fields).map fun f => "a.get" ++ cap f.name ++ "()")

def adapter_to_domain_args (id : IdSpec) (fields : List FieldSpec) : String :=
  joinComma ((all_fields id fields).map fun f => "e.get" ++ cap f.name ++ "()")

def request_all_args (id : IdSpec) (fields : List FieldSpec) : String :=
  if id_generated id then
    joinComma ("null" :: fields.map fun f => "request." ++ f.name ++ "()")
  else
    joinComma (("request." ++ id.name ++ "()") ::
      fields.map fun f => "request." ++ f.name ++ "()")

def response_from_agg_args (id : IdSpec) (fields : List FieldSpec) : String :=
  joinComma ((all_fields id fields).map fun f => "agg.get" ++ cap f.name ++ "()")

def list_map_response_args (id : IdSpec) (fields : List FieldSpec) : String :=
  joinComma ((all_fields id fields).map fun f => "a.get" ++ cap f.name ++ "()")

def update_create_args (id : IdSpec) (fields : List FieldSpec) : String :=
  joinComma (id.name :: fields.map fun f => "request." ++ f.name ++ "()")

def mapper_create_args (fields : List FieldSpec) : String :=
  joinComma ("id" :: fields.map fun f => "request." ++ f.name ++ "()")

def create_id_arg (id : IdSpec) : String :=
  if id_generated id then "null" else "request." ++ id.name ++ "()"

def table_name (entity : String) : String := camel_to_snake entity

/-- `base_path = f"/api/{table_name}"` — `main`, line 708.  This is the
value substituted for the `base_path` placeholder of the controller
template. -/
def base_path (entity : String) : String := "/api/" ++ table_name entity

/-- The base path the built-in controller template (`tmpl_controller`,
line 513) emits: `f"/api/{camel_to_snake(entity)}s"`, commented "naive
pluralization with 's'". -/
def tmpl_controller_base (entity : String) : String :=
  "/api/" ++ camel_to_snake entity ++ "s"

/-- Python `str()` of one parsed field dict, assuming the wire document
wrote exactly `name` then `type` (the documented field shape). -/
def pyReprField (f : FieldSpec) : String :=
  "\x7b'name': '" ++ f.name ++ "', 'type': '" ++ f.ftype ++ "'\x7d"

/-- Python `str()` of the parsed id dict (with its `generated` flag when
the document carried one). -/
def pyReprId (id : IdSpec) : String :=
  match id.generated with
  | some b => "\x7b'name': '" ++ id.name ++ "', 'type': '" ++ id.ftype ++
      "', 'generated': " ++ (if b then "True" else "False") ++ "\x7d"
  | none => "\x7b'name': '" ++ id.name ++ "', 'type': '" ++ id.ftype ++ "'\x7d"

/-- Python `str()` of a list of field dicts. -/
def pyReprFieldList (fs : List String) : String :=
  "[" ++ joinComma fs ++ "]"

def lombok_domain_imports (lombok : Bool) : String :=
  if lombok then "import lombok.Getter;" else ""

def lombok_domain_annots_block (lombok : Bool) : String :=
  if lombok then "\n@Getter" else ""

def lombok_model_imports (lombok : Bool) : String :=
  if lombok then
    "import lombok.Getter;\nimport lombok.Setter;\nimport lombok.AllArgsConstructor;"
  else ""

def lombok_common_imports (lombok : Bool) : String :=
  if lombok then
    "import lombok.RequiredArgsConstructor;\nimport lombok.extern.slf4j.Slf4j;"
  else ""

def model_annots (lombok : Bool) : String :=
  if lombok then "@Getter\n@Setter\n@AllArgsConstructor" else ""

/-- `service_annotations`; lines 720-722 define `controller_annotations`
and `adapter_annotations` as the identical string, so this definition
serves all three placeholders. -/
def service_annots (lombok : Bool) : String :=
  if lombok then "@RequiredArgsConstructor\n@Slf4j" else ""

def annots_block (annots : String) : String :=
  if annots ≠ "" then "\n" ++ annots else ""

/-- The `placeholders` dict of `main` (lines 732-793), in insertion order.
The `fields`/`all_fields` entries hold Python lists of dicts; they are
stringified the way `safe_substitute` would (`str`). -/
def buildPlaceholders (entity pkg : String) (lombok : Bool)
    (id : IdSpec) (fields : List FieldSpec) : List (String × String) :=
  [("entity", entity),
   ("Entity", entity),
   ("EntityRequest", entity ++ "Request"),
   ("EntityResponse", entity ++ "Response"),
   ("entity_lower", lower_first entity),
   ("package", pkg),
   ("Package", pyReplace pkg "." "/"),
   ("table_name", table_name entity),
   ("base_path", base_path entity),
   ("id_type", id.ftype),
   ("id_name", id.name),
   ("id_name_lower", lower_first id.name),
   ("id_generated", if id_generated id then "true" else "false"),
   ("fields", pyReprFieldList (fields.map pyReprField)),
   ("all_fields", pyReprFieldList (pyReprId id :: fields.map pyReprField)),
   ("extra_imports", extra_imports id fields),
   ("final_kw", final_kw lombok),
   ("domain_fields_decls", domain_fields_decls lombok id fields),
   ("domain_ctor_params", domain_ctor_params id fields),
   ("domain_assigns", domain_assigns id fields),
   ("domain_getters", domain_getters lombok id fields),
   ("model_constructor_block", model_constructor_block lombok entity id fields),
   ("all_names_csv", all_names_csv id fields),
   ("jpa_fields_decls", jpa_fields_decls id fields),
   ("jpa_ctor_params", domain_ctor_params id fields),
   ("jpa_assigns", domain_assigns id fields),
   ("jpa_getters_setters", jpa_getters_setters id fields),
   ("dto_response_components", dto_response_components id fields),
   ("dto_request_components", dto_request_components id fields),
   ("adapter_to_entity_args", adapter_to_entity_args id fields),
   ("adapter_to_domain_args", adapter_to_domain_args id fields),
   ("request_all_args", request_all_args id fields),
   ("response_from_agg_args", response_from_agg_args id fields),
   ("list_map_response_args", list_map_response_args id fields),
   ("update_create_args", update_create_args id fields),
   ("mapper_create_args", mapper_create_args fields),
   ("create_id_arg", create_id_arg id),
   ("lombok_domain_imports", lombok_domain_imports lombok),
   ("lombok_domain_annotations_block", lombok_domain_annots_block lombok),
   ("lombok_model_imports", lombok_model_imports lombok),
   ("lombok_common_imports", lombok_common_imports lombok),
   ("model_annotations", model_annots lombok),
   ("service_annotations", service_annots lombok),
   ("controller_annotations", service_annots lombok),
   ("adapter_annotations", service_annots lombok),
   ("service_annotations_block", annots_block (service_annots lombok)),
   ("controller_annotations_block", annots_block (service_annots lombok)),
   ("adapter_annotations_block", annots_block (service_annots lombok)),
   ("model_annotations_block", annots_block (model_annots lombok)),
   ("controller_constructor", ""),
   ("adapter_constructor", ""),
   ("create_constructor", ""),
   ("update_constructor", ""),
   ("get_constructor", ""),
   ("list_constructor", ""),
   ("delete_constructor", ""),
   ("domain_service_constructor", "")]

/-! ## Template rendering

`string.Template(text).safe_substitute(placeholders)` scans the text left
to right for `$$` (an escaped delimiter), `$ident`, `${ident}` (identifier
pattern `[_a-zA-Z][_a-zA-Z0-9]*`) or a lone `$`; a recognized identifier
present in the map is replaced by its value — which is never re-scanned —
an absent identifier leaves the whole token in place, and a lone or
ill-formed delimiter is left as text.  The fuel argument (the template
length; every step consumes at least one template character) makes the
scan structurally recursive. -/

def isIdentStart (c : Char) : Bool := isUpperAZ c || isLowerAZ c || c = '_'

def isIdentChar (c : Char) : Bool := isIdentStart c || isDigit09 c

/-- Python dict lookup on the placeholder map. -/
def lookupPm (pm : List (String × String)) (k : String) : Option String :=
  pm.lookup k

/-- Nonempty and starting with an identifier-start character (the tail is
all identifier characters by construction wherever this is applied). -/
def identHeadStart : List Char → Bool
  | [] => false
  | c :: _ => isIdentStart c

def safeSubAux (pm : List (String × String)) : Nat → List Char → List Char
  | 0, l => l
  | _ + 1, [] => []
  | fuel + 1, c :: rest =>
    if c = '$' then
      match rest with
      | [] => ['$']
      | d :: rest2 =>
        if d = '$' then '$' :: safeSubAux pm fuel rest2
        else if d = '\x7b' then
          let ident := rest2.takeWhile isIdentChar
          let after := rest2.drop ident.length
          if identHeadStart ident && after.head? = some '\x7d' then
            match lookupPm pm (String.mk ident) with
            | some v => v.data ++ safeSubAux pm fuel (after.drop 1)
            | none =>
              '$' :: '\x7b' :: (ident ++ '\x7d' :: safeSubAux pm fuel (after.drop 1))
          else '$' :: safeSubAux pm fuel rest
        else if isIdentStart d then
          let ident := rest.takeWhile isIdentChar
          match lookupPm pm (String.mk ident) with
          | some v => v.data ++ safeSubAux pm fuel (rest.drop ident.length)
          | none => '$' :: (ident ++ safeSubAux pm fuel (rest.drop ident.length))
        else '$' :: safeSubAux pm fuel rest
    else c :: safeSubAux pm fuel rest

def safe_substitute (text : String) (pm : List (String × String)) : String :=
  String.mk (safeSubAux pm text.data.length text.data)

/-- `render_template_file`: `None` propagates (missing template); a loaded
template is substituted, right-stripped, and newline-terminated.  (The
`except` branch cannot fire for a string-valued map.) -/
def render_template_file (tpl : Option String) (pm : List (String × String)) :
    Option String :=
  tpl.map fun text => pyRstrip (safe_substitute text pm) ++ "\n"

/-- The eight `*_constructor` placeholders `_render` replaces literally —
in this order — after `safe_substitute` has run. -/
def constructorKeys : List String :=
  ["controller_constructor", "adapter_constructor", "create_constructor",
   "update_constructor", "get_constructor", "list_constructor",
   "delete_constructor", "domain_service_constructor"]

/-- The chained `.replace("$<key>", placeholders_dict.get(key, ""))` calls
of `_render` (lines 798-805). -/
def applyCtorReplaces (pm : List (String × String)) (s : String) : String :=
  constructorKeys.foldl
    (fun acc k => pyReplace acc ("$" ++ k) ((lookupPm pm k).getD "")) s

/-- `_render(name, placeholders_dict)`: render the named template, fail if
it is absent, then run the constructor replaces. -/
def renderOne (tpl : Option String) (pm : List (String × String))
    (name : String) : Except String String :=
  match render_template_file tpl pm with
  | none => Except.error ("Template render failed: " ++ name)
  | some c => Except.ok (applyCtorReplaces pm c)

/-! ## Relationship rendering of the built-in `tmpl_jpa_entity`

`main` reads `relationships` from the spec but never uses them; the only
relationship logic in the program is the loop of `tmpl_jpa_entity` (lines
236-283), which builds one annotated field block per usable relationship
and silently skips entries without a (truthy) name, target, or known
type. -/

def relTypeSet : List String := ["ONE_TO_ONE", "ONE_TO_MANY", "MANY_TO_MANY"]

/-- Python truthiness of an optional string entry. -/
def truthy (o : Option String) : Bool := (o.getD "") ≠ ""

/-- The field block `tmpl_jpa_entity` emits for one relationship entry
(`none` when the loop `continue`s past it). -/
def relFieldSrc (r : RelSpec) : Option String :=
  let rt := pyUpper (r.rtype.getD "")
  match r.name, r.target with
  | some n, some t =>
    if n = "" || t = "" || rt ∉ relTypeSet then none
    else if rt = "ONE_TO_ONE" then
      let annots :=
        if truthy r.mappedBy then
          ["    @OneToOne(mappedBy = \"" ++ r.mappedBy.getD "" ++
            "\", fetch = FetchType.LAZY)"]
        else
          ["    @OneToOne(fetch = FetchType.LAZY, optional = " ++
            (if r.optionalFlag.getD true then "true" else "false") ++ ")"] ++
          (if truthy r.joinColumn then
            ["    @JoinColumn(name = \"" ++ r.joinColumn.getD "" ++ "\")"] else [])
      some (joinNl (annots ++ ["    private " ++ t ++ "Entity " ++ n ++ ";"]))
    else if rt = "ONE_TO_MANY" then
      let annots :=
        if truthy r.mappedBy then
          ["    @OneToMany(mappedBy = \"" ++ r.mappedBy.getD "" ++
            "\", fetch = FetchType.LAZY)"]
        else
          ["    @OneToMany(fetch = FetchType.LAZY)"] ++
          (if truthy r.joinColumn then
            ["    @JoinColumn(name = \"" ++ r.joinColumn.getD "" ++ "\")"] else [])
      some (joinNl (annots ++
        ["    private Set<" ++ t ++ "Entity> " ++ n ++
          " = new java.util.LinkedHashSet<>();"]))
    else
      let jt := r.joinTable.getD ⟨none, none, none⟩
      let annots := ["    @ManyToMany(fetch = FetchType.LAZY)"] ++
        (if truthy jt.name && truthy jt.joinColumn && truthy jt.inverseJoinColumn then
          ["    @JoinTable(name = \"" ++ jt.name.getD "" ++
            "\", joinColumns = @JoinColumn(name = \"" ++ jt.joinColumn.getD "" ++
            "\"), inverseJoinColumns = @JoinColumn(name = \"" ++
            jt.inverseJoinColumn.getD "" ++ "\"))"]
        else [])
      some (joinNl (annots ++
        ["    private Set<" ++ t ++ "Entity> " ++ n ++
          " = new java.util.LinkedHashSet<>();"]))
  | _, _ => none

/-! ## The generation pipeline (`main`) -/

/-- `required_templates` (lines 632-650), in source order. -/
def required_templates : List String :=
  ["DomainModel.java.tpl", "DomainRepository.java.tpl", "DomainService.java.tpl",
   "JpaEntity.java.tpl", "SpringDataRepository.java.tpl",
   "PersistenceAdapter.java.tpl", "CreateService.java.tpl", "GetService.java.tpl",
   "UpdateService.java.tpl", "DeleteService.java.tpl", "ListService.java.tpl",
   "DtoRequest.java.tpl", "DtoResponse.java.tpl", "Controller.java.tpl",
   "NotFoundException.java.tpl", "ExistException.java.tpl",
   "EntityExceptionHandler.java.tpl"]

/-- `missing = [name for name in required_templates if
load_template_text(templates_dir, name) is None]`.  The directory is a map
from file name to contents. -/
def missingTemplates (dir : String → Option String) : List String :=
  required_templates.filter fun n => (dir n).isNone

/-- The `SystemExit` message of the missing-template check (line 653). -/
def missingMsg (missing : List String) (dirName : String) : String :=
  "Missing required templates: " ++ joinComma missing ++ " in " ++ dirName

/-- `java_root = os.path.join(out_root, "src/main/java", package.replace(".", "/"))`. -/
def javaRoot (out pkg : String) : String :=
  out ++ "/src/main/java/" ++ pyReplace pkg "." "/"

/-- The seventeen (output path, template name) pairs, in the order `main`
renders and writes them (lines 809-859 with the `paths` dict). -/
def templateJobs (entity pkg out : String) : List (String × String) :=
  let jr := javaRoot out pkg
  [(jr ++ "/domain/model/" ++ entity ++ ".java", "DomainModel.java.tpl"),
   (jr ++ "/domain/repository/" ++ entity ++ "Repository.java", "DomainRepository.java.tpl"),
   (jr ++ "/domain/service/" ++ entity ++ "Service.java", "DomainService.java.tpl"),
   (jr ++ "/infrastructure/persistence/" ++ entity ++ "Entity.java", "JpaEntity.java.tpl"),
   (jr ++ "/infrastructure/persistence/" ++ entity ++ "JpaRepository.java", "SpringDataRepository.java.tpl"),
   (jr ++ "/infrastructure/persistence/" ++ entity ++ "RepositoryAdapter.java", "PersistenceAdapter.java.tpl"),
   (jr ++ "/application/service/Create" ++ entity ++ "Service.java", "CreateService.java.tpl"),
   (jr ++ "/application/service/Get" ++ entity ++ "Service.java", "GetService.java.tpl"),
   (jr ++ "/application/service/Update" ++ entity ++ "Service.java", "UpdateService.java.tpl"),
   (jr ++ "/application/service/Delete" ++ entity ++ "Service.java", "DeleteService.java.tpl"),
   (jr ++ "/application/service/List" ++ entity ++ "Service.java", "ListService.java.tpl"),
   (jr ++ "/presentation/dto/" ++ entity ++ "Request.java", "DtoRequest.java.tpl"),
   (jr ++ "/presentation/dto/" ++ entity ++ "Response.java", "DtoResponse.java.tpl"),
   (jr ++ "/presentation/rest/" ++ entity ++ "Controller.java", "Controller.java.tpl"),
   (jr ++ "/application/exception/" ++ entity ++ "NotFoundException.java", "NotFoundException.java.tpl"),
   (jr ++ "/application/exception/" ++ entity ++ "ExistException.java", "ExistException.java.tpl"),
   (jr ++ "/presentation/rest/" ++ entity ++ "ExceptionHandler.java", "EntityExceptionHandler.java.tpl")]

/-- `write_file` writes `content.rstrip() + "\n"`. -/
def writeContent (c : String) : String := pyRstrip c ++ "\n"

/-- Render every job in order, stopping at the first failure (the written
artifact is the right-stripped, newline-terminated render). -/
def renderJobs (dir : String → Option String) (pm : List (String × String)) :
    List (String × String) → Except String (List (String × String))
  | [] => Except.ok []
  | (path, tname) :: rest => do
    let c ← renderOne (dir tname) pm tname
    let others ← renderJobs dir pm rest
    Except.ok ((path, writeContent c) :: others)

/-- The generation pipeline of `main` after argument parsing and spec
loading: validate, resolve the id, check the template directory for the
required templates (aborting with the aggregate message), derive the
placeholder map, and render the seventeen artifacts in their fixed order.
File-system writes and the generated README are the external collaborator
boundary; `relationships` is read by `main` but never used. -/
def mainGen (s : EntitySpec) (lombok : Bool) (pkg out dirName : String)
    (dir : String → Option String) : Except String (List (String × String)) := do
  validateSpec s
  let id := idSpecOf s
  let missing := missingTemplates dir
  if missing ≠ [] then
    Except.error (missingMsg missing dirName)
  else
    renderJobs dir (buildPlaceholders s.entity pkg lombok id s.fields)
      (templateJobs s.entity pkg out)

/-! ## Order facts about the Python string comparison -/

theorem lexLe_refl : ∀ l : List Char, lexLe l l = true
  | [] => rfl
  | c :: rest => by simp [lexLe, lexLe_refl rest]

theorem lexLe_total : ∀ a b : List Char, lexLe a b = true ∨ lexLe b a = true
  | [], _ => Or.inl rfl
  | _ :: _, [] => Or.inr rfl
  | a :: as, b :: bs => by
    rcases eq_or_ne a b with h | h
    · subst h
      simpa [lexLe] using lexLe_total as bs
    · rcases lt_trichotomy a b with hlt | heq | hgt
      · exact Or.inl (by simp [lexLe, h, hlt])
      · exact absurd heq h
      · exact Or.inr (by simp [lexLe, h.symm, hgt])

theorem lexLe_trans : ∀ a b c : List Char,
    lexLe a b = true → lexLe b c = true → lexLe a c = true
  | [], _, _, _, _ => rfl
  | a :: as, [], _, hab, _ => by simp [lexLe] at hab
  | a :: as, b :: bs, [], _, hbc => by simp [lexLe] at hbc
  | a :: as, b :: bs, c :: cs, hab, hbc => by
    rcases eq_or_ne a b with h1 | h1 <;> rcases eq_or_ne b c with h2 | h2
    · subst h1; subst h2
      simp only [lexLe, if_pos rfl] at hab hbc ⊢
      exact lexLe_trans as bs cs hab hbc
    · subst h1
      simpa [lexLe, h2] using hbc
    · subst h2
      simpa [lexLe, h1] using hab
    · simp only [lexLe, if_neg h1] at hab
      simp only [lexLe, if_neg h2] at hbc
      have hac : a < c := lt_trans (of_decide_eq_true hab) (of_decide_eq_true hbc)
      have : a ≠ c := ne_of_lt hac
      simp [lexLe, this, hac]

theorem lexLe_antisymm : ∀ a b : List Char,
    lexLe a b = true → lexLe b a = true → a = b
  | [], [], _, _ => rfl
  | [], _ :: _, _, hba => by simp [lexLe] at hba
  | _ :: _, [], hab, _ => by simp [lexLe] at hab
  | a :: as, b :: bs, hab, hba => by
    rcases eq_or_ne a b with h | h
    · subst h
      simp only [lexLe, if_pos rfl] at hab hba
      rw [lexLe_antisymm as bs hab hba]
    · simp only [lexLe, if_neg h] at hab
      simp only [lexLe, if_neg (Ne.symm h)] at hba
      exact absurd (of_decide_eq_true hba) (not_lt_of_lt (of_decide_eq_true hab))

instance : IsTotal String pyStrLe := ⟨fun a b => lexLe_total a.data b.data⟩

instance : IsTrans String pyStrLe :=
  ⟨fun _ _ _ hab hbc => lexLe_trans _ _ _ hab hbc⟩

instance : IsAntisymm String pyStrLe :=
  ⟨fun a b hab hba => by
    cases a; cases b
    exact congrArg String.mk (lexLe_antisymm _ _ hab hba)⟩

instance : IsRefl String pyStrLe := ⟨fun a => lexLe_refl a.data⟩

theorem pySorted_sorted (l : List String) : List.Sorted pyStrLe (pySorted l) :=
  List.sorted_insertionSort pyStrLe l

theorem pySorted_perm (l : List String) : List.Perm (pySorted l) l :=
  List.perm_insertionSort pyStrLe l

theorem pySortedSet_sorted (l : List String) :
    List.Sorted pyStrLe (pySortedSet l) :=
  List.sorted_insertionSort pyStrLe l.dedup

theorem pySortedSet_nodup (l : List String) : (pySortedSet l).Nodup :=
  ((pySorted_perm l.dedup).nodup_iff).mpr (List.nodup_dedup l)

theorem pySortedSet_mem (l : List String) (x : String) :
    x ∈ pySortedSet l ↔ x ∈ l := by
  unfold pySortedSet
  rw [(pySorted_perm l.dedup).mem_iff, List.mem_dedup]

/-! ## Facts about the import registries and loops -/

/-- The four entries of the crud import registry. -/
theorem JTI_cases (t i : String) (h : JAVA_TYPE_IMPORTS t = some i) :
    (t = "BigDecimal" ∧ i = "import java.math.BigDecimal;") ∨
    (t = "UUID" ∧ i = "import java.util.UUID;") ∨
    (t = "LocalDate" ∧ i = "import java.time.LocalDate;") ∨
    (t = "LocalDateTime" ∧ i = "import java.time.LocalDateTime;") := by
  unfold JAVA_TYPE_IMPORTS at h
  repeat' split at h
  all_goals simp_all

/-- The crud registry is monotone: larger type keys map to larger import
lines (in the Python string order). -/
theorem JTI_mono (t1 t2 i1 i2 : String) (h1 : JAVA_TYPE_IMPORTS t1 = some i1)
    (h2 : JAVA_TYPE_IMPORTS t2 = some i2) (hle : pyStrLe t1 t2) :
    pyStrLe i1 i2 := by
  rcases JTI_cases t1 i1 h1 with ⟨rfl, rfl⟩ | ⟨rfl, rfl⟩ | ⟨rfl, rfl⟩ | ⟨rfl, rfl⟩ <;>
    rcases JTI_cases t2 i2 h2 with ⟨rfl, rfl⟩ | ⟨rfl, rfl⟩ | ⟨rfl, rfl⟩ | ⟨rfl, rfl⟩ <;>
    first
      | decide
      | exact absurd hle (by decide)

/-- The crud registry is injective on the keys it maps. -/
theorem JTI_inj (t1 t2 i : String) (h1 : JAVA_TYPE_IMPORTS t1 = some i)
    (h2 : JAVA_TYPE_IMPORTS t2 = some i) : t1 = t2 := by
  rcases JTI_cases t1 i h1 with ⟨rfl, rfl⟩ | ⟨rfl, rfl⟩ | ⟨rfl, rfl⟩ | ⟨rfl, rfl⟩ <;>
    rcases JTI_cases t2 _ h2 with ⟨rfl, h⟩ | ⟨rfl, h⟩ | ⟨rfl, h⟩ | ⟨rfl, h⟩ <;>
    first
      | rfl
      | exact absurd h (by decide)

theorem qualifyLoop_sorted_nodup :
    ∀ (ts acc : List String), acc.Pairwise pyStrLe → acc.Nodup →
      ts.Pairwise pyStrLe →
      (∀ a ∈ acc, ∀ t ∈ ts, ∀ i, JAVA_TYPE_IMPORTS t = some i → pyStrLe a i) →
      (qualifyLoop acc ts).Pairwise pyStrLe ∧ (qualifyLoop acc ts).Nodup
  | [], acc, hs, hn, _, _ => ⟨hs, hn⟩
  | t :: ts, acc, hs, hn, hts, hinv => by
    rw [List.pairwise_cons] at hts
    cases hJ : JAVA_TYPE_IMPORTS t with
    | none =>
      simp only [qualifyLoop, hJ]
      exact qualifyLoop_sorted_nodup ts acc hs hn hts.2
        (fun a ha t' ht' i hi => hinv a ha t' (List.mem_cons_of_mem t ht') i hi)
    | some imp =>
      simp only [qualifyLoop, hJ]
      by_cases hmem : imp ∈ acc
      · simp only [if_pos hmem]
        exact qualifyLoop_sorted_nodup ts acc hs hn hts.2
          (fun a ha t' ht' i hi => hinv a ha t' (List.mem_cons_of_mem t ht') i hi)
      · simp only [if_neg hmem]
        have hs' : (acc ++ [imp]).Pairwise pyStrLe := by
          rw [List.pairwise_append]
          exact ⟨hs, List.pairwise_singleton _ _,
            fun a ha b hb => by
              rw [List.mem_singleton] at hb
              rw [hb]
              exact hinv a ha t (List.mem_cons_self t ts) imp hJ⟩
        have hn' : (acc ++ [imp]).Nodup := by
          rw [List.nodup_append]
          refine ⟨hn, List.nodup_singleton _, ?_⟩
          intro a ha hb
          rw [List.mem_singleton] at hb
          exact hmem (hb ▸ ha)
        refine qualifyLoop_sorted_nodup ts (acc ++ [imp]) hs' hn' hts.2 ?_
        intro a ha t' ht' i hi
        rcases List.mem_append.mp ha with ha | ha
        · exact hinv a ha t' (List.mem_cons_of_mem t ht') i hi
        · rw [List.mem_singleton] at ha
          rw [ha]
          exact JTI_mono t t' imp i hJ hi (hts.1 t' ht')

/-- Every collected import comes from the accumulator or from a mapped
type of the scanned list. -/
theorem qualifyLoop_mem :
    ∀ (ts acc : List String) (i : String), i ∈ qualifyLoop acc ts →
      i ∈ acc ∨ ∃ t ∈ ts, JAVA_TYPE_IMPORTS t = some i
  | [], _, i, h => Or.inl h
  | t :: ts, acc, i, h => by
    cases hJ : JAVA_TYPE_IMPORTS t with
    | none =>
      simp only [qualifyLoop, hJ] at h
      rcases qualifyLoop_mem ts acc i h with h' | ⟨t', ht', hi⟩
      · exact Or.inl h'
      · exact Or.inr ⟨t', List.mem_cons_of_mem t ht', hi⟩
    | some imp =>
      simp only [qualifyLoop, hJ] at h
      by_cases hmem : imp ∈ acc
      · rw [if_pos hmem] at h
        rcases qualifyLoop_mem ts acc i h with h' | ⟨t', ht', hi⟩
        · exact Or.inl h'
        · exact Or.inr ⟨t', List.mem_cons_of_mem t ht', hi⟩
      · rw [if_neg hmem] at h
        rcases qualifyLoop_mem ts (acc ++ [imp]) i h with h' | ⟨t', ht', hi⟩
        · rcases List.mem_append.mp h' with h'' | h''
          · exact Or.inl h''
          · rw [List.mem_singleton] at h''
            subst h''
            exact Or.inr ⟨t, List.mem_cons_self t ts, hJ⟩
        · exact Or.inr ⟨t', List.mem_cons_of_mem t ht', hi⟩

theorem extraImportsList_sorted_nodup (types : List String) :
    (extraImportsList types).Pairwise pyStrLe ∧ (extraImportsList types).Nodup :=
  qualifyLoop_sorted_nodup (pySortedSet types) [] (List.Pairwise.nil)
    (List.nodup_nil) (pySortedSet_sorted types) (by intro a ha; cases ha)

/-- Appending a string already present does not change `sorted(set(...))`. -/
theorem pySortedSet_append_mem (types : List String) (t : String)
    (ht : t ∈ types) : pySortedSet (types ++ [t]) = pySortedSet types := by
  refine List.eq_of_perm_of_sorted ?_ (pySortedSet_sorted _) (pySortedSet_sorted _)
  refine List.perm_of_nodup_nodup_toFinset_eq (pySortedSet_nodup _)
    (pySortedSet_nodup _) ?_
  ext x
  simp only [List.mem_toFinset, pySortedSet_mem, List.mem_append,
    List.mem_singleton]
  constructor
  · rintro (hx | rfl)
    · exact hx
    · exact ht
  · exact Or.inl

theorem extraImports_idempotent (types : List String) (t imp : String)
    (himp : JAVA_TYPE_IMPORTS t = some imp)
    (hmem : imp ∈ extraImportsList types) :
    extraImportsList (types ++ [t]) = extraImportsList types := by
  have hsrc := qualifyLoop_mem (pySortedSet types) [] imp hmem
  rcases hsrc with h | ⟨t', ht', hJ⟩
  · cases h
  · have heq : t' = t := JTI_inj t' t imp hJ himp
    have ht : t ∈ types := (pySortedSet_mem types t).mp (heq ▸ ht')
    unfold extraImportsList
    rw [pySortedSet_append_mem types t ht]

theorem collectLoop_nodup :
    ∀ (fs : List (String × String)) (acc : List String), acc.Nodup →
      (collectLoop acc fs).Nodup
  | [], _, hn => hn
  | (nm, typ) :: fs, acc, hn => by
    simp only [collectLoop]
    split
    · next hc =>
      exact collectLoop_nodup fs _ (by
        rw [List.nodup_append]
        exact ⟨hn, List.nodup_singleton _,
          fun a ha hb => hc.2 ((List.mem_singleton.mp hb) ▸ ha)⟩)
    · exact collectLoop_nodup fs acc hn

theorem collectLoop_append :
    ∀ (fs : List (String × String)) (acc : List String) (nm t : String),
      collectLoop acc (fs ++ [(nm, t)]) =
        (if java_type_imports t ≠ "" ∧ java_type_imports t ∉ collectLoop acc fs then
          collectLoop acc fs ++ [java_type_imports t]
        else collectLoop acc fs)
  | [], acc, nm, t => by simp [collectLoop]
  | (nm', t') :: fs, acc, nm, t => by
    simp only [List.cons_append, collectLoop]
    split
    · exact collectLoop_append fs _ nm t
    · exact collectLoop_append fs acc nm t

theorem collect_imports_sorted_nodup (fs : List (String × String)) :
    (collect_imports fs).Pairwise pyStrLe ∧ (collect_imports fs).Nodup :=
  ⟨pySorted_sorted _,
    (pySorted_perm _).nodup_iff.mpr (collectLoop_nodup fs [] List.nodup_nil)⟩

theorem collect_imports_idempotent (fs : List (String × String)) (nm t : String)
    (_h1 : java_type_imports t ≠ "")
    (h2 : java_type_imports t ∈ collect_imports fs) :
    collect_imports (fs ++ [(nm, t)]) = collect_imports fs := by
  have hmem : java_type_imports t ∈ collectLoop [] fs :=
    (pySorted_perm _).mem_iff.mp h2
  unfold collect_imports
  rw [collectLoop_append]
  simp [hmem]

/-! ## Facts about validation -/

theorem checkFieldTypes_ok_iff :
    ∀ fs : List FieldSpec, checkFieldTypes fs = Except.ok () ↔
      ∀ f ∈ fs, f.ftype ∈ SUPPORTED_SIMPLE_TYPES
  | [] => by simp [checkFieldTypes]
  | f :: fs => by
    by_cases h : f.ftype ∈ SUPPORTED_SIMPLE_TYPES
    · simp [checkFieldTypes, h, checkFieldTypes_ok_iff fs]
    · simp [checkFieldTypes, h]

theorem validateSpec_ok_iff (s : EntitySpec) :
    validateSpec s = Except.ok () ↔
      (s.entity ≠ "" ∧ pascalMatch s.entity = true ∧
        (idSpecOf s).ftype ∈ SUPPORTED_SIMPLE_TYPES ∧
        ∀ f ∈ s.fields, f.ftype ∈ SUPPORTED_SIMPLE_TYPES) := by
  unfold validateSpec
  by_cases h1 : s.entity = "" ∨ pascalMatch s.entity = false
  · rcases h1 with h1 | h1 <;> simp [h1]
  · push_neg at h1
    have hp : pascalMatch s.entity = true := by
      cases hb : pascalMatch s.entity
      · exact absurd hb h1.2
      · rfl
    by_cases h2 : (idSpecOf s).ftype ∈ SUPPORTED_SIMPLE_TYPES
    · simp [h1.1, hp, h2, checkFieldTypes_ok_iff]
    · simp [h1.1, hp, h2]

theorem validateSpec_entity_error (s : EntitySpec)
    (h : s.entity = "" ∨ pascalMatch s.entity = false) :
    validateSpec s =
      Except.error "Spec 'entity' must be a PascalCase identifier, e.g., 'Product'" := by
  simp [validateSpec, h]

/-! ## The claims -/

/-- C1: for the scenario-A spec (`entity: "Product"`, generated `Long` id,
fields `name`/`price`), the claim states that the base-API-path
placeholder — the value `main` substitutes for the controller's
request-mapping path — equals `"/api/products"`.  Evaluating the code at
this input: the `base_path` placeholder is `"/api/product"`, with no
trailing `"s"`, while the built-in `tmpl_controller` (line 513, commented
"naive pluralization with 's'") would emit `"/api/products"`; `main`'s
placeholder (line 708) omits the pluralizing `"s"` that both the spec and
the program's own template helper document. -/
theorem C1_base_path_placeholder_eval :
    lookupPm (buildPlaceholders "Product" "com.example.product" false
        ⟨"id", "Long", some true⟩ [⟨"name", "String"⟩, ⟨"price", "BigDecimal"⟩])
      "base_path" = some "/api/product" ∧
    base_path "Product" ≠ "/api/products" ∧
    tmpl_controller_base "Product" = "/api/products" :=
  ⟨rfl, by decide, rfl⟩

/-- C2: the request contract omits the id exactly when the id is marked
generated (leaving the declared fields in spec order), otherwise lists the
id first and then the declared fields; the response contract always lists
the id first and then the declared fields. -/
theorem C2_contract_components (id : IdSpec) (fields : List FieldSpec) :
    dto_request_components id fields =
      joinComma ((if id_generated id then fields
                  else idField id :: fields).map componentDecl) ∧
    dto_response_components id fields =
      joinComma ((idField id :: fields).map componentDecl) := by
  constructor
  · unfold dto_request_components dto_request_fields all_fields
    cases id_generated id <;> simp
  · rfl

/-- C7: the snake-case transform applies the two regex passes in sequence
and lowercases, mapping `"fooBar"` to `"foo_bar"` and `"FooBARBaz"` to
`"foo_bar_baz"`; `to_upper_snake` is the uppercase of `to_snake_case`, and
the crud generator's `camel_to_snake` is the same transform. -/
theorem C7_casing :
    to_snake_case "fooBar" = "foo_bar" ∧
    to_snake_case "FooBARBaz" = "foo_bar_baz" ∧
    (∀ s, to_upper_snake s = pyUpper (to_snake_case s)) ∧
    (∀ s, camel_to_snake s = to_snake_case s) :=
  ⟨by decide, by decide, fun _ => rfl, fun _ => rfl⟩

/-- C8: for every list of used types the derived import block is sorted
(in the Python string order) and duplicate-free, and appending a field
whose type maps to an already-present import leaves the block unchanged —
both for the crud generator's `qualify_imports(sorted(used_types))`
pipeline and for `utils.collect_imports`. -/
theorem C8_import_block :
    (∀ types : List String,
      (extraImportsList types).Pairwise pyStrLe ∧ (extraImportsList types).Nodup) ∧
    (∀ (types : List String) (t imp : String),
      JAVA_TYPE_IMPORTS t = some imp → imp ∈ extraImportsList types →
      extraImportsList (types ++ [t]) = extraImportsList types) ∧
    (∀ fs : List (String × String),
      (collect_imports fs).Pairwise pyStrLe ∧ (collect_imports fs).Nodup) ∧
    (∀ (fs : List (String × String)) (nm t : String),
      java_type_imports t ≠ "" → java_type_imports t ∈ collect_imports fs →
      collect_imports (fs ++ [(nm, t)]) = collect_imports fs) :=
  ⟨extraImportsList_sorted_nodup,
   fun types t imp h1 h2 => extraImports_idempotent types t imp h1 h2,
   collect_imports_sorted_nodup,
   fun fs nm t h1 h2 => collect_imports_idempotent fs nm t h1 h2⟩

/-- C8 witness: adding a second `BigDecimal`-typed field changes neither
of the two import blocks. -/
theorem C8_witness :
    extraImportsList (["UUID", "BigDecimal"] ++ ["BigDecimal"]) =
      extraImportsList ["UUID", "BigDecimal"] ∧
    collect_imports ([("a", "BigDecimal"), ("b", "Set")] ++ [("c", "BigDecimal")]) =
      collect_imports [("a", "BigDecimal"), ("b", "Set")] :=
  ⟨C8_import_block.2.1 ["UUID", "BigDecimal"] "BigDecimal"
      "import java.math.BigDecimal;" rfl (by decide),
   C8_import_block.2.2.2 [("a", "BigDecimal"), ("b", "Set")] "c" "BigDecimal"
      (by decide) (by decide)⟩

/-- C10: a spec document without an `id` entry resolves to the default id
`{name: "id", type: "Long", generated: true}`; validation then succeeds
whenever the entity name and field types are valid, the request contract
omits the id, the persistence id mapping carries `@GeneratedValue`, and
the forwarding expressions use the default id (`null` for the create path,
`"id"` in the update path). -/
theorem C10_default_id (e : String) (fs : List FieldSpec) (rs : List RelSpec) :
    idSpecOf ⟨e, none, fs, rs⟩ = defaultIdSpec ∧
    (validateSpec ⟨e, none, fs, rs⟩ = Except.ok () ↔
      (e ≠ "" ∧ pascalMatch e = true ∧
        ∀ f ∈ fs, f.ftype ∈ SUPPORTED_SIMPLE_TYPES)) ∧
    dto_request_fields defaultIdSpec fs = fs ∧
    jpa_id_decl defaultIdSpec =
      "    @Id\n    @GeneratedValue(strategy = GenerationType.IDENTITY)\n    private Long id;" ∧
    create_id_arg defaultIdSpec = "null" ∧
    request_all_args defaultIdSpec fs =
      joinComma ("null" :: fs.map fun f => "request." ++ f.name ++ "()") ∧
    update_create_args defaultIdSpec fs =
      joinComma ("id" :: fs.map fun f => "request." ++ f.name ++ "()") := by
  refine ⟨rfl, ?_, rfl, rfl, rfl, rfl, rfl⟩
  rw [validateSpec_ok_iff]
  simp [idSpecOf, defaultIdSpec, SUPPORTED_SIMPLE_TYPES]

/-- C4 counterexample: a spec whose field names repeat (and repeat the id
name) passes validation — no duplicate-name check exists, so no
`SpecFormatError` is raised on this input, contrary to the claim. -/
theorem C4_counterexample :
    validateSpec ⟨"Product", some ⟨"id", "Long", some true⟩,
      [⟨"name", "String"⟩, ⟨"name", "String"⟩, ⟨"id", "Long"⟩], []⟩ =
      Except.ok () := rfl

/-- C4 amended: validation checks, in order, only the entity-name shape,
the id type's registry membership, and each field type's registry
membership (first offender reported); there is no duplicate-field-name
check, so a spec with duplicate names validates whenever those three
checks pass. -/
theorem C4_validation_checks (s : EntitySpec) :
    (validateSpec s = Except.ok () ↔
      (s.entity ≠ "" ∧ pascalMatch s.entity = true ∧
        (idSpecOf s).ftype ∈ SUPPORTED_SIMPLE_TYPES ∧
        ∀ f ∈ s.fields, f.ftype ∈ SUPPORTED_SIMPLE_TYPES)) ∧
    ((s.entity = "" ∨ pascalMatch s.entity = false) →
      validateSpec s =
        Except.error "Spec 'entity' must be a PascalCase identifier, e.g., 'Product'") ∧
    ((s.entity ≠ "" ∧ pascalMatch s.entity = true ∧
        (idSpecOf s).ftype ∉ SUPPORTED_SIMPLE_TYPES) →
      validateSpec s = Except.error ("Unsupported id type: " ++ (idSpecOf s).ftype)) := by
  refine ⟨validateSpec_ok_iff s, validateSpec_entity_error s, ?_⟩
  rintro ⟨h1, h2, h3⟩
  simp [validateSpec, h1, h2, h3]

/-- C4 witness: a lowercase entity name hits the entity-shape error. -/
theorem C4_witness :
    validateSpec ⟨"product", none, [], []⟩ =
      Except.error "Spec 'entity' must be a PascalCase identifier, e.g., 'Product'" :=
  (C4_validation_checks _).2.1 (Or.inr (by decide))

/-- C3 counterexample: a spec carrying a `MANY_TO_MANY` relationship with
a name and target but neither `mappedBy` nor any `joinTable` validates and
generates successfully — the run does not fail, and no
`RelationshipSpecError` exists anywhere in the program. -/
theorem C3_counterexample :
    validateSpec ⟨"Product", some ⟨"id", "Long", some true⟩, [⟨"name", "String"⟩],
      [⟨some "MANY_TO_MANY", some "tags", some "Tag", none, none, none, none⟩]⟩ =
      Except.ok () ∧
    (mainGen ⟨"Product", some ⟨"id", "Long", some true⟩, [⟨"name", "String"⟩],
        [⟨some "MANY_TO_MANY", some "tags", some "Tag", none, none, none, none⟩]⟩
      false "com.example" "out" "tpl" (fun _ => some "x")).isOk = true :=
  ⟨rfl, rfl⟩

/-- C3 amended: relationships are never validated — the whole generation
run is independent of the `relationships` entry — and the only
relationship-rendering code in the program (the built-in
`tmpl_jpa_entity`) silently emits a `@ManyToMany` field without a
`@JoinTable` annotation when the join-table triple is incomplete,
regardless of `mappedBy`. -/
theorem C3_relationships_not_validated :
    (∀ (s : EntitySpec) (rels : List RelSpec) (lombok : Bool)
        (pkg out dirName : String) (dir : String → Option String),
      mainGen ⟨s.entity, s.id, s.fields, rels⟩ lombok pkg out dirName dir =
        mainGen s lombok pkg out dirName dir) ∧
    (∀ (r : RelSpec) (n t : String),
      pyUpper (r.rtype.getD "") = "MANY_TO_MANY" → r.name = some n →
      r.target = some t → n ≠ "" → t ≠ "" →
      (truthy (r.joinTable.getD ⟨none, none, none⟩).name &&
        truthy (r.joinTable.getD ⟨none, none, none⟩).joinColumn &&
        truthy (r.joinTable.getD ⟨none, none, none⟩).inverseJoinColumn) = false →
      relFieldSrc r = some ("    @ManyToMany(fetch = FetchType.LAZY)\n" ++
        "    private Set<" ++ t ++ "Entity> " ++ n ++
        " = new java.util.LinkedHashSet<>();")) := by
  constructor
  · intro s rels lombok pkg out dirName dir
    rfl
  · intro r n t hrt hn ht hn0 ht0 hjt
    unfold relFieldSrc
    rw [hn, ht, hrt]
    have h1 : ¬(n = "" || t = "" || decide ("MANY_TO_MANY" ∉ relTypeSet)) = true := by
      simp [hn0, ht0, relTypeSet]
    simp only [relTypeSet] at h1 ⊢
    simp only [hn0, ht0, hjt, if_neg, joinNl, joinSep]
    rw [if_neg (show ¬("MANY_TO_MANY" : String) = "ONE_TO_ONE" by decide),
        if_neg (show ¬("MANY_TO_MANY" : String) = "ONE_TO_MANY" by decide)]
    congr 1

/-- C3 witness: the relationship-independence and the silent `@ManyToMany`
rendering at the counterexample's relationship. -/
theorem C3_witness :
    mainGen ⟨"P", none, [],
        [⟨some "MANY_TO_MANY", some "tags", some "Tag", none, none, none, none⟩]⟩
      false "p" "o" "d" (fun _ => some "x") =
      mainGen ⟨"P", none, [], []⟩ false "p" "o" "d" (fun _ => some "x") ∧
    relFieldSrc ⟨some "MANY_TO_MANY", some "tags", some "Tag", none, none, none, none⟩ =
      some "    @ManyToMany(fetch = FetchType.LAZY)\n    private Set<TagEntity> tags = new java.util.LinkedHashSet<>();" :=
  ⟨C3_relationships_not_validated.1 ⟨"P", none, [], []⟩
      [⟨some "MANY_TO_MANY", some "tags", some "Tag", none, none, none, none⟩]
      false "p" "o" "d" (fun _ => some "x"),
   by
    have h := C3_relationships_not_validated.2
      ⟨some "MANY_TO_MANY", some "tags", some "Tag", none, none, none, none⟩
      "tags" "Tag" rfl rfl rfl (by decide) (by decide) rfl
    simpa using h⟩

/-- Every member of a joined list occurs verbatim in the joined string. -/
theorem joinSep_mem_split (sep : String) :
    ∀ (l : List String) (n : String), n ∈ l →
      ∃ p q, joinSep sep l = p ++ n ++ q
  | [], n, h => absurd h (List.not_mem_nil n)
  | [x], n, h => by
    rw [List.mem_singleton] at h
    subst h
    exact ⟨"", "", by simp [joinSep]⟩
  | x :: y :: xs, n, h => by
    rcases List.mem_cons.mp h with rfl | h'
    · refine ⟨"", sep ++ joinSep sep (y :: xs), ?_⟩
      show joinSep sep (n :: y :: xs) = "" ++ n ++ (sep ++ joinSep sep (y :: xs))
      rw [joinSep]
      simp [String.append_assoc]
    · obtain ⟨p, q, hpq⟩ := joinSep_mem_split sep (y :: xs) n h'
      refine ⟨x ++ sep ++ p, q, ?_⟩
      rw [joinSep, hpq]
      simp [String.append_assoc]

/-- C5: whenever the spec validates and exactly the (nonempty) subset `S`
of the required template names is absent from the template directory, the
run aborts with the aggregate missing-template message — it renders no
artifact, the missing list contains exactly the members of `S`, and every
member of `S` occurs verbatim in the message. -/
theorem C5_missing_templates_abort (s : EntitySpec) (lombok : Bool)
    (pkg out dirName : String) (dir : String → Option String) (S : List String)
    (hval : validateSpec s = Except.ok ())
    (hsub : ∀ n ∈ S, n ∈ required_templates)
    (habs : ∀ n ∈ required_templates, ((dir n).isNone = true ↔ n ∈ S))
    (hne : S ≠ []) :
    mainGen s lombok pkg out dirName dir =
      Except.error (missingMsg (missingTemplates dir) dirName) ∧
    (∀ n, n ∈ missingTemplates dir ↔ n ∈ S) ∧
    (∀ n ∈ S, ∃ p q, missingMsg (missingTemplates dir) dirName = p ++ n ++ q) := by
  have hmem : ∀ n, n ∈ missingTemplates dir ↔ n ∈ S := by
    intro n
    unfold missingTemplates
    rw [List.mem_filter]
    constructor
    · rintro ⟨hreq, hnone⟩
      exact (habs n hreq).mp (by simpa using hnone)
    · intro hnS
      exact ⟨hsub n hnS, by simpa using (habs n (hsub n hnS)).mpr hnS⟩
  have hnonempty : missingTemplates dir ≠ [] := by
    obtain ⟨n, hn⟩ := List.exists_mem_of_ne_nil S hne
    intro hcontra
    have := (hmem n).mpr hn
    rw [hcontra] at this
    exact List.not_mem_nil n this
  refine ⟨?_, hmem, ?_⟩
  · unfold mainGen
    rw [hval]
    simp only [Except.bind, hnonempty, if_pos, pure]
    rw [if_pos hnonempty]
    rfl
  · intro n hn
    obtain ⟨p, q, hpq⟩ :=
      joinSep_mem_split ", " (missingTemplates dir) n ((hmem n).mpr hn)
    refine ⟨"Missing required templates: " ++ p, q ++ (" in " ++ dirName), ?_⟩
    unfold missingMsg joinComma
    rw [hpq]
    simp [String.append_assoc]

/-- C5 witness: with only `Controller.java.tpl` removed, the run aborts
with a message naming exactly that template. -/
theorem C5_witness :
    mainGen ⟨"P", none, [], []⟩ false "p" "o" "tpldir"
        (fun n => if n = "Controller.java.tpl" then none else some "x") =
      Except.error (missingMsg (missingTemplates
        (fun n => if n = "Controller.java.tpl" then none else some "x")) "tpldir") ∧
    (∀ n, n ∈ missingTemplates
        (fun n => if n = "Controller.java.tpl" then none else some "x") ↔
      n ∈ ["Controller.java.tpl"]) ∧
    (∀ n ∈ ["Controller.java.tpl"], ∃ p q,
      missingMsg (missingTemplates
        (fun n => if n = "Controller.java.tpl" then none else some "x")) "tpldir" =
        p ++ n ++ q) :=
  C5_missing_templates_abort ⟨"P", none, [], []⟩ false "p" "o" "tpldir"
    (fun n => if n = "Controller.java.tpl" then none else some "x")
    ["Controller.java.tpl"] rfl (by decide) (by decide) (by decide)

/-! ## Facts about substitution and the constructor replaces -/

theorem strMk_data (s : String) : String.mk s.data = s := by cases s; rfl

theorem strMk_append (w : String) (l : List Char) :
    String.mk (w.data ++ l) = w ++ String.mk l := by cases w; rfl

/-- `old` occurs (as a contiguous run) somewhere in the scanned list. -/
def containsTok (old : List Char) : List Char → Bool
  | [] => false
  | c :: rest => old.isPrefixOf (c :: rest) || containsTok old rest

theorem replaceAux_of_not_contains (old new : List Char) :
    ∀ (fuel : Nat) (l : List Char), containsTok old l = false →
      replaceAux old new fuel l = l
  | 0, _, _ => rfl
  | _ + 1, [], _ => rfl
  | fuel + 1, c :: rest, h => by
    rw [containsTok, Bool.or_eq_false_iff] at h
    rw [replaceAux, if_neg (by simp [h.1])]
    rw [replaceAux_of_not_contains old new fuel rest h.2]

theorem replaceAux_head_match (o : Char) (os rest new : List Char) (fuel : Nat)
    (h : containsTok (o :: os) rest = false) :
    replaceAux (o :: os) new (fuel + 1) ((o :: os) ++ rest) = new ++ rest := by
  have hpre : (o :: os).isPrefixOf ((o :: os) ++ rest) = true :=
    List.isPrefixOf_iff_prefix.mpr (List.prefix_append (o :: os) rest)
  rw [List.cons_append, replaceAux, if_pos (by exact_mod_cast hpre)]
  have hdrop : (o :: (os ++ rest)).drop (o :: os).length = rest := by
    have h2 := List.drop_left (o :: os) rest
    rwa [List.cons_append] at h2
  rw [hdrop, replaceAux_of_not_contains (o :: os) new fuel rest h]

theorem pyReplace_no_token (s old new : String)
    (h : containsTok old.data s.data = false) : pyReplace s old new = s := by
  unfold pyReplace
  rw [replaceAux_of_not_contains old.data new.data s.data.length s.data h,
    strMk_data]

theorem safeSubAux_nil (pm : List (String × String)) :
    ∀ fuel, safeSubAux pm fuel [] = [] := by
  intro fuel; cases fuel <;> rfl

/-- A well-formed `safe_substitute` identifier: nonempty, starting with
`[_a-zA-Z]`, continuing with `[_a-zA-Z0-9]`. -/
def validIdent (k : String) : Bool :=
  identHeadStart k.data && k.data.all isIdentChar

theorem identStart_not_special (c : Char) (h : isIdentStart c = true) :
    ¬c = '$' ∧ ¬c = '\x7b' := by
  constructor <;> rintro rfl <;> exact absurd h (by decide)

theorem safeSub_token (pm : List (String × String)) (k : String)
    (hk : validIdent k = true) :
    safe_substitute ("$" ++ k) pm =
      (match lookupPm pm k with
       | some v => v
       | none => "$" ++ k) := by
  obtain ⟨kd⟩ := k
  unfold validIdent at hk
  rw [Bool.and_eq_true] at hk
  obtain ⟨c, rest, rfl⟩ : ∃ c rest, kd = c :: rest := by
    cases kd with
    | nil => exact absurd hk.1 (by decide)
    | cons c rest => exact ⟨c, rest, rfl⟩
  have hstart : isIdentStart c = true := hk.1
  have hall : ∀ x ∈ c :: rest, isIdentChar x = true := by
    simpa [List.all_eq_true] using hk.2
  have hne := identStart_not_special c hstart
  show String.mk (safeSubAux pm ('$' :: c :: rest).length ('$' :: c :: rest)) = _
  rw [show ('$' :: c :: rest).length = rest.length + 1 + 1 by simp]
  rw [safeSubAux, if_pos rfl]
  rw [if_neg hne.1, if_neg hne.2, if_pos hstart]
  rw [List.takeWhile_eq_self_iff.mpr (by simpa using hall)]
  cases hlk : lookupPm pm (String.mk (c :: rest)) with
  | some v =>
    simp only [hlk]
    rw [List.drop_length, safeSubAux_nil, List.append_nil, strMk_data]
  | none =>
    simp only [hlk]
    rw [List.drop_length, safeSubAux_nil, List.append_nil]
    rfl

theorem safeSub_no_delim (pm : List (String × String)) :
    ∀ (fuel : Nat) (l : List Char), (∀ c ∈ l, c ≠ '$') →
      safeSubAux pm fuel l = l
  | 0, _, _ => rfl
  | _ + 1, [], _ => rfl
  | fuel + 1, c :: rest, h => by
    show safeSubAux pm (fuel + 1) (c :: rest) = c :: rest
    rw [safeSubAux.eq_def]
    simp only [if_neg (h c (List.mem_cons_self c rest))]
    rw [safeSub_no_delim pm fuel rest (fun x hx => h x (List.mem_cons_of_mem c hx))]

/-- The constructor replaces of `_render`, applied to an output that is
exactly the `$domain_service_constructor` token and a newline, substitute
the token again with the map's value for that key (empty default). -/
theorem ctorReplaces_dsc (pm : List (String × String)) :
    applyCtorReplaces pm "$domain_service_constructor\n" =
      ((lookupPm pm "domain_service_constructor").getD "") ++ "\n" := by
  unfold applyCtorReplaces constructorKeys
  simp only [List.foldl]
  have hno : ∀ (k : String), containsTok ("$" ++ k).data
      ("$domain_service_constructor\n" : String).data = false → ∀ v,
      pyReplace "$domain_service_constructor\n" ("$" ++ k) v =
        "$domain_service_constructor\n" :=
    fun k hk v => pyReplace_no_token _ _ _ hk
  rw [hno "controller_constructor" (by decide),
      hno "adapter_constructor" (by decide),
      hno "create_constructor" (by decide),
      hno "update_constructor" (by decide),
      hno "get_constructor" (by decide),
      hno "list_constructor" (by decide),
      hno "delete_constructor" (by decide)]
  generalize (lookupPm pm "domain_service_constructor").getD "" = v
  unfold pyReplace
  have h := replaceAux_head_match '$' ("domain_service_constructor".data) ['\n']
    v.data 27 (by decide)
  exact (congrArg String.mk h).trans
    ((strMk_append v ['\n']).trans (by rfl))

/-- C6 counterexample: `_render` substitutes a constructor token occurring
inside a substituted value.  With `a` mapped to the literal text
`$domain_service_constructor` (and that key present, as in the pipeline
map), rendering the template `$a` yields `"XX\n"` — the token inside the
substituted value was replaced again — not the claimed literal emission
`"$domain_service_constructor\n"`. -/
theorem C6_counterexample :
    renderOne (some "$a")
      [("a", "$domain_service_constructor"), ("domain_service_constructor", "XX")]
      "DomainModel.java.tpl" = Except.ok "XX\n" ∧
    ("XX\n" : String) ≠ "$domain_service_constructor\n" :=
  ⟨rfl, by decide⟩

/-- C6 amended: the core substitution (`Template.safe_substitute` inside
`render_template_file`) is single-pass and non-recursive — a known token
is replaced by its value verbatim, whatever tokens the value contains, an
unknown token is emitted literally, and token-free text is untouched —
but `_render` afterwards runs literal replacement of the eight
`*_constructor` placeholders over the substituted output, so one of those
eight tokens arriving through a substituted value is substituted again. -/
theorem C6_substitution_semantics :
    (∀ (pm : List (String × String)) (k v : String), validIdent k = true →
      lookupPm pm k = some v → safe_substitute ("$" ++ k) pm = v) ∧
    (∀ (pm : List (String × String)) (k : String), validIdent k = true →
      lookupPm pm k = none → safe_substitute ("$" ++ k) pm = "$" ++ k) ∧
    (∀ (pm : List (String × String)) (s : String), (∀ c ∈ s.data, c ≠ '$') →
      safe_substitute s pm = s) ∧
    (∀ (pm : List (String × String)) (k name : String), validIdent k = true →
      lookupPm pm k = some "$domain_service_constructor" →
      renderOne (some ("$" ++ k)) pm name =
        Except.ok (((lookupPm pm "domain_service_constructor").getD "") ++ "\n")) := by
  refine ⟨?_, ?_, ?_, ?_⟩
  · intro pm k v hk hv
    rw [safeSub_token pm k hk, hv]
  · intro pm k hk hv
    rw [safeSub_token pm k hk, hv]
  · intro pm s h
    unfold safe_substitute
    rw [safeSub_no_delim pm s.data.length s.data h, strMk_data]
  · intro pm k name hk hv
    show Except.ok (applyCtorReplaces pm
        (pyRstrip (safe_substitute ("$" ++ k) pm) ++ "\n")) = _
    rw [safeSub_token pm k hk, hv]
    rw [show pyRstrip "$domain_service_constructor" ++ "\n" =
      "$domain_service_constructor\n" from rfl]
    rw [ctorReplaces_dsc]

/-- C6 witness: the substitution semantics at concrete inputs — a found
key, a missing key, and a constructor token injected through a value. -/
theorem C6_witness :
    safe_substitute "$entity" [("entity", "Product")] = "Product" ∧
    safe_substitute "$missing" [("entity", "Product")] = "$missing" ∧
    renderOne (some "$a")
      [("a", "$domain_service_constructor"), ("domain_service_constructor", "YY")]
      "T.java.tpl" = Except.ok "YY\n" :=
  ⟨C6_substitution_semantics.1 [("entity", "Product")] "entity" "Product"
      (by decide) rfl,
   C6_substitution_semantics.2.1 [("entity", "Product")] "missing" (by decide) rfl,
   C6_substitution_semantics.2.2.2
      [("a", "$domain_service_constructor"), ("domain_service_constructor", "YY")]
      "a" "T.java.tpl" (by decide) rfl⟩

/-- On success, the rendered artifacts follow the job list one-for-one. -/
theorem renderJobs_map_fst (dir : String → Option String)
    (pm : List (String × String)) :
    ∀ (jobs arts : List (String × String)),
      renderJobs dir pm jobs = Except.ok arts →
      arts.map Prod.fst = jobs.map Prod.fst
  | [], arts, h => by
    simp only [renderJobs] at h
    cases h
    rfl
  | (path, tname) :: rest, arts, h => by
    simp only [renderJobs] at h
    cases hr : renderOne (dir tname) pm tname with
    | error e => rw [hr] at h; cases h
    | ok c =>
      rw [hr] at h
      cases hrest : renderJobs dir pm rest with
      | error e => rw [hrest] at h; cases h
      | ok others =>
        rw [hrest] at h
        cases h
        simp only [List.map_cons]
        rw [renderJobs_map_fst dir pm rest others hrest]

/-- C9: the generation pipeline is a pure function of the spec, the
options and the template directory: two runs on the same inputs return the
same result, and a successful run's artifacts appear in the fixed job
order (paths of the seventeen artifacts, in `main`'s write order). -/
theorem C9_determinism (s : EntitySpec) (lombok : Bool)
    (pkg out dirName : String) (dir : String → Option String)
    (r1 r2 : Except String (List (String × String)))
    (h1 : r1 = mainGen s lombok pkg out dirName dir)
    (h2 : r2 = mainGen s lombok pkg out dirName dir) :
    r1 = r2 ∧ ∀ arts, r1 = Except.ok arts →
      arts.map Prod.fst = (templateJobs s.entity pkg out).map Prod.fst := by
  refine ⟨h1.trans h2.symm, ?_⟩
  intro arts hok
  rw [h1] at hok
  unfold mainGen at hok
  cases hval : validateSpec s with
  | error e => rw [hval] at hok; cases hok
  | ok u =>
    cases u
    rw [hval] at hok
    by_cases hmiss : missingTemplates dir ≠ []
    · rw [if_pos hmiss] at hok
      cases hok
    · rw [if_neg hmiss] at hok
      exact renderJobs_map_fst dir _ _ arts hok

/-- C9 witness: two runs at a concrete spec and template set coincide, and
the artifact paths come out in the fixed order. -/
theorem C9_witness :
    mainGen ⟨"P", none, [], []⟩ false "p" "o" "d" (fun _ => some "x") =
      mainGen ⟨"P", none, [], []⟩ false "p" "o" "d" (fun _ => some "x") ∧
    ((mainGen ⟨"P", none, [], []⟩ false "p" "o" "d"
        (fun _ => some "x")).toOption.getD []).map Prod.fst =
      (templateJobs "P" "p" "o").map Prod.fst :=
  ⟨(C9_determinism ⟨"P", none, [], []⟩ false "p" "o" "d" (fun _ => some "x")
      _ _ rfl rfl).1,
   (C9_determinism ⟨"P", none, [], []⟩ false "p" "o" "d" (fun _ => some "x")
      _ _ rfl rfl).2 _ rfl⟩

end Crud
